import Mathlib

/-!
Verification of the metrics-aggregation and dashboard layer of the
BigQuery performance-optimization dashboard.

The repository ships the React frontend (components `ExpensiveQueries`,
`OrganizationOverview`, `PulseView`, `TimeWindowInvestigation`,
`FilterControls`, the app context in `AppContext.jsx`, and the `Config`
module).  The Flask backend that issues the warehouse SQL is not part of
the source tree; where a property depends on backend behaviour the
corresponding definition is modelled from the design document and marked
as such in its doc comment.  Frontend behaviour is embedded directly
from the JSX sources: component state becomes an explicit state record
and each handler becomes a state-transition function.
-/

namespace BQDash

/-- One historical job run (an `ExecutionRecord` of the data model):
identifier, owning project, region, initiating user, submission time
(milliseconds), duration, slot-milliseconds, bytes processed, cache-hit
flag, error status and category, and the normalized query text.  The
query text is kept as the list of its UTF-16 code units, which is the
representation the JavaScript string operations in the frontend act on. -/
structure ExecutionRecord where
  job_id : String
  project_id : String
  region : String
  user_email : String
  creation_time : Nat
  duration_seconds : Nat
  total_slot_ms : Nat
  bytes_processed : Nat
  cache_hit : Bool
  is_error : Bool
  error_category : Option String
  query : List Nat
deriving Repr, DecidableEq

/-- A scope: an optional project selector (none = all projects) and a
region, narrowing which execution records a request considers. -/
structure Scope where
  project : Option String
  region : String
deriving Repr, DecidableEq

/-- A half-open time range `[startMs, endMs)` filtering execution
records by submission time. -/
structure TimeWindow where
  startMs : Nat
  endMs : Nat
deriving Repr, DecidableEq

/-- Whether an execution record falls inside a scope and window: the
project matches (or the scope selects all projects), the region
matches, and the submission time lies in the half-open range. -/
def inScope (s : Scope) (w : TimeWindow) (r : ExecutionRecord) : Bool :=
  (match s.project with
   | none => true
   | some p => p = r.project_id) &&
  (s.region = r.region) &&
  (w.startMs ≤ r.creation_time) && (r.creation_time < w.endMs)

/-- The ranking order used by the top-by-cost listing: descending by
slot-milliseconds, ties broken by ascending submission time (the
earlier job wins the tie). -/
def costLE (a b : ExecutionRecord) : Prop :=
  b.total_slot_ms < a.total_slot_ms ∨
    (a.total_slot_ms = b.total_slot_ms ∧ a.creation_time ≤ b.creation_time)

instance : DecidableRel costLE := fun a b => by
  unfold costLE; infer_instance

instance : IsTotal ExecutionRecord costLE where
  total a b := by
    unfold costLE
    omega

instance : IsTrans ExecutionRecord costLE where
  trans a b c hab hbc := by
    unfold costLE at *
    omega

/-- An `ExecutionRecord` annotated with its 1-based rank within a
scope. -/
structure RankedQuery where
  record : ExecutionRecord
  rank : Nat
deriving Repr, DecidableEq

/-- Annotate a list of records with consecutive ranks starting at `k`. -/
def rankFrom (k : Nat) : List ExecutionRecord → List RankedQuery
  | [] => []
  | x :: xs => ⟨x, k⟩ :: rankFrom (k + 1) xs

/-- Modelled from the spec: the Query Ranking Service operation
`topByCost(scope, window, n)`.  The backend SQL that implements it is
not part of the shipped source tree; per the design document the
operation selects the records matching the scope and window, orders
them descending by slot-milliseconds with ties broken by ascending
submission time, truncates to at most `n` entries, and annotates each
entry with its 1-based rank (the frontend renders the rank of the entry
at list index `i` as `i + 1`). -/
def topByCost (s : Scope) (w : TimeWindow) (n : Nat)
    (records : List ExecutionRecord) : List RankedQuery :=
  rankFrom 1 ((List.insertionSort costLE
    (records.filter (fun r => inScope s w r))).take n)

theorem rankFrom_map_record (k : Nat) (l : List ExecutionRecord) :
    (rankFrom k l).map RankedQuery.record = l := by
  induction l generalizing k with
  | nil => rfl
  | cons x xs ih => simp [rankFrom, ih]

theorem rankFrom_map_rank (k : Nat) (l : List ExecutionRecord) :
    (rankFrom k l).map RankedQuery.rank = List.range' k l.length := by
  induction l generalizing k with
  | nil => rfl
  | cons x xs ih => simp [rankFrom, ih, List.range']

theorem rankFrom_length (k : Nat) (l : List ExecutionRecord) :
    (rankFrom k l).length = l.length := by
  induction l generalizing k with
  | nil => rfl
  | cons x xs ih => simp [rankFrom, ih]

/-- C1: the output of `topByCost` is totally ordered descending by
slot-milliseconds with ties broken by ascending submission time, each
entry's rank equals its 1-based position in that order, and when fewer
than `n` matching records exist exactly that many entries are returned
(not padded, not an error). -/
theorem topByCost_ordered_ranked_truncated
    (s : Scope) (w : TimeWindow) (n : Nat) (records : List ExecutionRecord) :
    List.Sorted costLE ((topByCost s w n records).map RankedQuery.record) ∧
    (topByCost s w n records).map RankedQuery.rank =
      List.range' 1 (topByCost s w n records).length ∧
    (topByCost s w n records).length =
      min n (records.filter (fun r => inScope s w r)).length := by
  refine ⟨?_, ?_, ?_⟩
  · rw [topByCost, rankFrom_map_record]
    exact (List.sorted_insertionSort costLE _).sublist
      (List.take_sublist n _)
  · rw [topByCost, rankFrom_map_rank, rankFrom_length]
  · rw [topByCost, rankFrom_length, List.length_take,
      List.length_insertionSort]

/-! ### Query preview truncation (Config.MAX_QUERY_PREVIEW_LENGTH) -/

/-- From `Config` (frontend configuration module): the default preview
truncation length. -/
def MAX_QUERY_PREVIEW_LENGTH : Nat := 150

/-- From `ExpensiveQueries` (the preview fallback
`query.query?.substring(0, Config.MAX_QUERY_PREVIEW_LENGTH)`):
JavaScript `substring(0, k)` keeps the first `k` UTF-16 code units of
the string. -/
def queryPreview (query : List Nat) (k : Nat) : List Nat :=
  query.take k

/-- A UTF-16 high surrogate (the first code unit of a surrogate
pair). -/
def isHighSurrogate (u : Nat) : Bool :=
  decide (0xD800 ≤ u) && decide (u ≤ 0xDBFF)

/-- A UTF-16 low surrogate (the second code unit of a surrogate
pair). -/
def isLowSurrogate (u : Nat) : Bool :=
  decide (0xDC00 ≤ u) && decide (u ≤ 0xDFFF)

/-- The truncation at `k` falls inside a multi-unit character: the
preview ends with a high surrogate whose matching low surrogate is the
next code unit of the original text. -/
def splitsSurrogatePair (query : List Nat) (k : Nat) : Bool :=
  match (queryPreview query k).getLast?, query.get? k with
  | some hi, some lo => isHighSurrogate hi && isLowSurrogate lo
  | _, _ => false

/-- A 151-code-unit query text: 149 ASCII characters followed by one
astral character (U+1F600, the surrogate pair D83D DE00). -/
def surrogateBoundaryQuery : List Nat :=
  List.replicate 149 65 ++ [0xD83D, 0xDE00]

/-- C2 counterexample: with the default `K = 150`, truncating
`surrogateBoundaryQuery` falls mid-surrogate-pair — the preview ends
with the lone high surrogate D83D — refuting "the truncation never
falls mid-multibyte-sequence". -/
theorem queryPreview_splits_surrogate :
    splitsSurrogatePair surrogateBoundaryQuery MAX_QUERY_PREVIEW_LENGTH
      = true := by
  decide

/-- C2 amended: the preview is the first `K` UTF-16 code units of the
normalized query text, it is a prefix of the original text (appending
the dropped suffix restores the text), its length is `min K` the text
length, and for a text containing no high surrogate (in particular any
ASCII text, such as the 500-character example) the truncation never
falls mid-multibyte-sequence. -/
theorem queryPreview_is_code_unit_trunc (query : List Nat) (k : Nat) :
    queryPreview query k ++ query.drop k = query ∧
    (queryPreview query k).length = min k query.length ∧
    ((∀ u ∈ query, isHighSurrogate u = false) →
      splitsSurrogatePair query k = false) := by
  refine ⟨List.take_append_drop k query, List.length_take k query, ?_⟩
  intro hno
  unfold splitsSurrogatePair
  cases hlast : (queryPreview query k).getLast? with
  | none => simp
  | some hi =>
    cases hget : query.get? k with
    | none => simp
    | some lo =>
      obtain ⟨hne, heq⟩ := List.mem_getLast?_eq_getLast
        (show hi ∈ (queryPreview query k).getLast? from hlast)
      have hmem : hi ∈ queryPreview query k := heq ▸ List.getLast_mem hne
      have hmem' : hi ∈ query := List.take_subset k query hmem
      simp [hno hi hmem']

/-- A 500-code-unit all-ASCII query text. -/
def asciiQuery500 : List Nat := List.replicate 500 65

/-- C2 amended, witnessed at the concrete 500-character ASCII query
with `K = 150`. -/
theorem queryPreview_is_code_unit_trunc_witness :
    (queryPreview asciiQuery500 MAX_QUERY_PREVIEW_LENGTH ++
        asciiQuery500.drop MAX_QUERY_PREVIEW_LENGTH = asciiQuery500) ∧
    (queryPreview asciiQuery500 MAX_QUERY_PREVIEW_LENGTH).length =
      min MAX_QUERY_PREVIEW_LENGTH asciiQuery500.length ∧
    splitsSurrogatePair asciiQuery500 MAX_QUERY_PREVIEW_LENGTH = false :=
  ⟨(queryPreview_is_code_unit_trunc asciiQuery500 MAX_QUERY_PREVIEW_LENGTH).1,
   (queryPreview_is_code_unit_trunc asciiQuery500 MAX_QUERY_PREVIEW_LENGTH).2.1,
   (queryPreview_is_code_unit_trunc asciiQuery500 MAX_QUERY_PREVIEW_LENGTH).2.2
     (by
       intro u hu
       have h65 := List.eq_of_mem_replicate
         (show u ∈ List.replicate 500 65 from hu)
       subst h65
       decide)⟩

/-! ### ExpensiveQueries component state and handlers -/

/-- The query-details payload returned by the `query-details` endpoint:
the full SQL text and the referenced-table schema text (DDL). -/
structure QueryDetails where
  query : String
  ddl : String
deriving Repr, DecidableEq

/-- The state of the `ExpensiveQueries` component: the selected job id,
the fetched query details, the recommendations text, the loading flags
and the modal-visibility flag. -/
structure EQState where
  selectedJobId : Option String
  queryDetails : Option QueryDetails
  recommendations : String
  loadingDetails : Bool
  loadingRecommendations : Bool
  isModalOpen : Bool
deriving Repr, DecidableEq

/-- From `ExpensiveQueries.handleQuerySelect`: clicking the job that is
already selected clears the selection, the details and the
recommendations and returns without issuing a request; clicking a
different job selects it, clears the recommendations and issues one
`query-details` request whose success stores the details and whose
failure clears them.  The second component is the job id of the
outbound request, `none` when no request is issued. -/
def handleQuerySelect (s : EQState) (jobId : String)
    (fetchResult : Except String QueryDetails) : EQState × Option String :=
  if s.selectedJobId = some jobId then
    ({ s with selectedJobId := none, queryDetails := none,
              recommendations := "" }, none)
  else
    let s1 := { s with selectedJobId := some jobId, recommendations := "" }
    match fetchResult with
    | .ok d => ({ s1 with queryDetails := some d,
                          loadingDetails := false }, some jobId)
    | .error _ => ({ s1 with queryDetails := none,
                             loadingDetails := false }, some jobId)

/-- From `ExpensiveQueries.getOptimizationRecommendations`: a no-op
when no details are held; otherwise the modal is opened and one
`optimize` call is made — on success the recommendations text is
stored, on failure only an alert is shown — and the loading flag is
cleared in both cases.  `result` is the outcome of the external call. -/
def getOptimizationRecommendations (s : EQState)
    (result : Except String String) : EQState :=
  match s.queryDetails with
  | none => s
  | some _ =>
    match result with
    | .ok text => { s with isModalOpen := true,
                           recommendations := text,
                           loadingRecommendations := false }
    | .error _ => { s with isModalOpen := true,
                           loadingRecommendations := false }

/-- A concrete details payload for concrete-state theorems. -/
def sampleDetails : QueryDetails :=
  { query := "SELECT * FROM t", ddl := "CREATE TABLE t (a INT64)" }

/-- A concrete `ExpensiveQueries` state holding fetched details with
the modal closed. -/
def stateHeldClosed : EQState :=
  { selectedJobId := some "job-1", queryDetails := some sampleDetails,
    recommendations := "", loadingDetails := false,
    loadingRecommendations := false, isModalOpen := false }

/-- C3 counterexample: a failed recommendation call does not affect
only the recommendation result and loading flag — from a state with
the modal closed and details held, the failure path flips the
modal-visibility flag as well, since the handler opens the modal before
the call. -/
theorem getOptimizationRecommendations_changes_modal :
    (getOptimizationRecommendations stateHeldClosed
        (Except.error "network")).isModalOpen = true ∧
    stateHeldClosed.isModalOpen = false :=
  ⟨rfl, rfl⟩

/-- C3 amended: a failed recommendation call leaves the already-fetched
query and schema data — and the selected job id, and even the
recommendations text — unchanged in the component state (only the
loading flag and the modal-visibility flag are affected), so retrying
the recommendation requires no re-fetch of query or schema data. -/
theorem getOptimizationRecommendations_failure_frame
    (s : EQState) (e : String) :
    (getOptimizationRecommendations s (Except.error e)).queryDetails
        = s.queryDetails ∧
    (getOptimizationRecommendations s (Except.error e)).selectedJobId
        = s.selectedJobId ∧
    (getOptimizationRecommendations s (Except.error e)).recommendations
        = s.recommendations := by
  cases hq : s.queryDetails <;>
    simp [getOptimizationRecommendations, hq]

/-- C9: invoking the query-selection handler with the job id that is
already selected deselects it — the selected job id, the query details
and the recommendations text are all cleared — and no outbound
query-details request is issued. -/
theorem handleQuerySelect_toggle_deselects
    (s : EQState) (jobId : String) (r : Except String QueryDetails)
    (h : s.selectedJobId = some jobId) :
    (handleQuerySelect s jobId r).1.selectedJobId = none ∧
    (handleQuerySelect s jobId r).1.queryDetails = none ∧
    (handleQuerySelect s jobId r).1.recommendations = "" ∧
    (handleQuerySelect s jobId r).2 = none := by
  unfold handleQuerySelect
  rw [if_pos h]
  exact ⟨rfl, rfl, rfl, rfl⟩

/-- C9 witnessed at a concrete state in which "job-1" is already
selected and re-clicked. -/
theorem handleQuerySelect_toggle_deselects_witness :
    (handleQuerySelect stateHeldClosed "job-1"
        (Except.ok sampleDetails)).1.selectedJobId = none ∧
    (handleQuerySelect stateHeldClosed "job-1"
        (Except.ok sampleDetails)).1.queryDetails = none ∧
    (handleQuerySelect stateHeldClosed "job-1"
        (Except.ok sampleDetails)).1.recommendations = "" ∧
    (handleQuerySelect stateHeldClosed "job-1"
        (Except.ok sampleDetails)).2 = none :=
  handleQuerySelect_toggle_deselects stateHeldClosed "job-1"
    (Except.ok sampleDetails) rfl

/-! ### Week-over-week change and its presentation in PulseView -/

/-- Modelled from the spec: the week-over-week change computation of
the Metrics Aggregator (the backend that computes `bytesProcessedChange`
and `slotMsChange` is not part of the shipped source tree).  The change
compares the current window total against the equally-sized immediately
preceding window total as a signed percentage; when the prior total is
zero the change is undefined (`none`), never a numeric value. -/
def wowChange (prior current : Rat) : Option Rat :=
  if prior = 0 then none
  else some ((current - prior) / prior * 100)

/-- From `PulseView` (the bytes-processed metric card): the
week-over-week indicator markup is the hard-coded literal
"7.7% PROCESSED WOW", independent of the fetched change value. -/
def renderBytesWowIndicator : Option Rat → String :=
  fun _ => "7.7% PROCESSED WOW"

/-- C4 counterexample: `PulseView` renders the undefined week-over-week
case exactly as it renders a numeric change — the indicator is a
hard-coded literal — so the undefined case is not rendered distinctly
from a number. -/
theorem renderBytesWowIndicator_not_distinct :
    renderBytesWowIndicator none = renderBytesWowIndicator (some 50) :=
  rfl

/-- C4 amended: for a prior-window total of 0 (in particular with
current total 10) the week-over-week change is reported as undefined
(`none`), distinct from every numeric percentage, never thrown and
never a numeric plus-infinity; the presentation layer, however, renders
the indicator as a fixed literal regardless of the change value, so the
undefined case is not displayed distinctly. -/
theorem wowChange_zero_prior_undefined :
    wowChange 0 10 = none ∧
    (∀ current : Rat, wowChange 0 current = none) ∧
    (∀ c : Option Rat,
      renderBytesWowIndicator c = "7.7% PROCESSED WOW") := by
  refine ⟨rfl, fun current => ?_, fun _ => rfl⟩
  simp [wowChange]

/-! ### Application context (AppContext.jsx) -/

/-- One entry of the project dropdown, as served by the `projects`
endpoint and as used in the fetch-failure fallback. -/
structure ProjectOption where
  id : String
  name : String
  display_name : String
deriving Repr, DecidableEq

/-- The shared context value assembled by `AppProvider`: project list,
current selections, the region list is omitted as a static constant,
and the loading flag. -/
structure AppContextValue where
  projects : List ProjectOption
  selectedProject : String
  selectedRegion : String
  loading : Bool
deriving Repr, DecidableEq

/-- From `AppContext.useAppContext`: reading the context gives `none`
outside any `AppProvider` (React returns the absent default), in which
case the hook throws; inside a provider it returns the shared value. -/
def useAppContext (ctx : Option AppContextValue) :
    Except String AppContextValue :=
  match ctx with
  | none => Except.error "useAppContext must be used within an AppProvider"
  | some v => Except.ok v

/-- C10: calling `useAppContext` outside an `AppProvider` always
throws the error "useAppContext must be used within an AppProvider";
inside a provider it always returns the shared context value. -/
theorem useAppContext_throws_outside_provider :
    useAppContext none =
      Except.error "useAppContext must be used within an AppProvider" ∧
    (∀ v : AppContextValue, useAppContext (some v) = Except.ok v) :=
  ⟨rfl, fun _ => rfl⟩

/-! ### Metrics Aggregator -/

/-- Running totals accumulated in one pass over the input records. -/
structure KPIAcc where
  jobs : Nat
  errors : Nat
  cacheHits : Nat
  slotMs : Nat
  bytes : Nat
deriving Repr, DecidableEq

/-- One aggregation step: fold one execution record into the running
totals. -/
def kpiStep (a : KPIAcc) (r : ExecutionRecord) : KPIAcc :=
  { jobs := a.jobs + 1
    errors := a.errors + (if r.is_error then 1 else 0)
    cacheHits := a.cacheHits + (if r.cache_hit then 1 else 0)
    slotMs := a.slotMs + r.total_slot_ms
    bytes := a.bytes + r.bytes_processed }

/-- The derived, non-persisted aggregate over a time window: totals and
rates computed from a collection of execution records. -/
structure KPISet where
  totalJobs : Nat
  totalErrors : Nat
  totalSlotMs : Nat
  totalBytes : Nat
  errorRate : Rat
  cacheHitRate : Rat
deriving Repr, DecidableEq

/-- Modelled from the spec: the Metrics Aggregator operation
`aggregate(records, window)` (the backend that computes the dashboard
KPIs is not part of the shipped source tree).  Sums and rates are
computed over exactly the input records in one pass; rate fields use
zero as the value when the denominator (total jobs) is zero. -/
def aggregate (records : List ExecutionRecord) (_w : TimeWindow) : KPISet :=
  let a := records.foldl kpiStep ⟨0, 0, 0, 0, 0⟩
  { totalJobs := a.jobs
    totalErrors := a.errors
    totalSlotMs := a.slotMs
    totalBytes := a.bytes
    errorRate :=
      if a.jobs = 0 then 0 else (a.errors : Rat) / (a.jobs : Rat) * 100
    cacheHitRate :=
      if a.jobs = 0 then 0 else (a.cacheHits : Rat) / (a.jobs : Rat) * 100 }

/-- Division that faults (returns `none`) on a zero denominator, used
to show the aggregator never reaches a division fault. -/
def checkedDiv (a b : Rat) : Option Rat :=
  if b = 0 then none else some (a / b)

/-- `aggregate` with every division routed through `checkedDiv`: the
result is `none` exactly when a division fault would be reached. -/
def aggregateChecked (records : List ExecutionRecord) (_w : TimeWindow) :
    Option KPISet :=
  let a := records.foldl kpiStep ⟨0, 0, 0, 0, 0⟩
  if a.jobs = 0 then
    some { totalJobs := a.jobs, totalErrors := a.errors,
           totalSlotMs := a.slotMs, totalBytes := a.bytes,
           errorRate := 0, cacheHitRate := 0 }
  else
    match checkedDiv (a.errors : Rat) (a.jobs : Rat),
          checkedDiv (a.cacheHits : Rat) (a.jobs : Rat) with
    | some er, some cr =>
        some { totalJobs := a.jobs, totalErrors := a.errors,
               totalSlotMs := a.slotMs, totalBytes := a.bytes,
               errorRate := er * 100, cacheHitRate := cr * 100 }
    | _, _ => none

theorem foldl_kpiStep_jobs (l : List ExecutionRecord) (a : KPIAcc) :
    (l.foldl kpiStep a).jobs = a.jobs + l.length := by
  induction l generalizing a with
  | nil => simp
  | cons x xs ih => simp [kpiStep, ih]; omega

theorem foldl_kpiStep_slotMs (l : List ExecutionRecord) (a : KPIAcc) :
    (l.foldl kpiStep a).slotMs =
      a.slotMs + (l.map (fun r => r.total_slot_ms)).sum := by
  induction l generalizing a with
  | nil => simp
  | cons x xs ih => simp [kpiStep, ih]; omega

theorem foldl_kpiStep_bytes (l : List ExecutionRecord) (a : KPIAcc) :
    (l.foldl kpiStep a).bytes =
      a.bytes + (l.map (fun r => r.bytes_processed)).sum := by
  induction l generalizing a with
  | nil => simp
  | cons x xs ih => simp [kpiStep, ih]; omega

/-- C5: every rate field is zero when the denominator (total jobs) is
zero, and no division fault is reachable for any input — the checked
aggregator always succeeds and agrees with `aggregate`, including on
the empty record set. -/
theorem aggregate_rates_total (records : List ExecutionRecord)
    (w : TimeWindow) :
    aggregateChecked records w = some (aggregate records w) ∧
    ((aggregate records w).totalJobs = 0 →
      (aggregate records w).errorRate = 0 ∧
      (aggregate records w).cacheHitRate = 0) := by
  constructor
  · unfold aggregateChecked aggregate
    by_cases h : (records.foldl kpiStep ⟨0, 0, 0, 0, 0⟩).jobs = 0
    · simp [h]
    · have hne : ((records.foldl kpiStep ⟨0, 0, 0, 0, 0⟩).jobs : Rat) ≠ 0 := by
        exact_mod_cast h
      simp [h, checkedDiv, hne]
  · intro h
    unfold aggregate at *
    simp only at h
    simp [h]

/-- C5 witnessed on the empty record set over a concrete window. -/
theorem aggregate_rates_total_witness :
    aggregateChecked [] ⟨0, 86400000⟩ = some (aggregate [] ⟨0, 86400000⟩) ∧
    (aggregate [] ⟨0, 86400000⟩).errorRate = 0 ∧
    (aggregate [] ⟨0, 86400000⟩).cacheHitRate = 0 :=
  ⟨(aggregate_rates_total [] ⟨0, 86400000⟩).1,
   (aggregate_rates_total [] ⟨0, 86400000⟩).2 rfl⟩

/-- A concrete execution record for concrete-input theorems. -/
def sampleRecord : ExecutionRecord :=
  { job_id := "job-1", project_id := "analytics-1", region := "us",
    user_email := "dev@example.com", creation_time := 1000,
    duration_seconds := 5, total_slot_ms := 42, bytes_processed := 1024,
    cache_hit := true, is_error := false, error_category := none,
    query := [83, 69, 76, 69, 67, 84] }

/-- C7: for every non-empty record set, the KPI totals equal the sums
of the corresponding per-record fields (slot-milliseconds, bytes), and
the KPI set is a pure function of its inputs — two calls with the same
record set and window yield the same `KPISet`. -/
theorem aggregate_totals_are_sums (records : List ExecutionRecord)
    (w : TimeWindow) (_h : records ≠ []) :
    (aggregate records w).totalSlotMs =
      (records.map (fun r => r.total_slot_ms)).sum ∧
    (aggregate records w).totalBytes =
      (records.map (fun r => r.bytes_processed)).sum ∧
    (∀ (records' : List ExecutionRecord) (w' : TimeWindow),
      records' = records → w' = w →
      aggregate records' w' = aggregate records w) := by
  refine ⟨?_, ?_, ?_⟩
  · show (records.foldl kpiStep ⟨0, 0, 0, 0, 0⟩).slotMs = _
    rw [foldl_kpiStep_slotMs]
    simp
  · show (records.foldl kpiStep ⟨0, 0, 0, 0, 0⟩).bytes = _
    rw [foldl_kpiStep_bytes]
    simp
  · intro records' w' hr hw
    rw [hr, hw]

/-- C7 witnessed at a concrete one-record set: the totals are the
record's own slot-milliseconds and bytes. -/
theorem aggregate_totals_are_sums_witness :
    (aggregate [sampleRecord] ⟨0, 86400000⟩).totalSlotMs =
      ([sampleRecord].map (fun r => r.total_slot_ms)).sum ∧
    (aggregate [sampleRecord] ⟨0, 86400000⟩).totalBytes =
      ([sampleRecord].map (fun r => r.bytes_processed)).sum ∧
    aggregate [sampleRecord] ⟨0, 86400000⟩ =
      aggregate [sampleRecord] ⟨0, 86400000⟩ :=
  ⟨(aggregate_totals_are_sums [sampleRecord] ⟨0, 86400000⟩
      (List.cons_ne_nil sampleRecord [])).1,
   (aggregate_totals_are_sums [sampleRecord] ⟨0, 86400000⟩
      (List.cons_ne_nil sampleRecord [])).2.1,
   (aggregate_totals_are_sums [sampleRecord] ⟨0, 86400000⟩
      (List.cons_ne_nil sampleRecord [])).2.2 _ _ rfl rfl⟩

/-! ### Organization overview -/

/-- One per-project row of the `organization-overview` payload. -/
structure ProjectRow where
  project_id : String
  total_queries : Nat
  slot_hours : Rat
  tb_processed : Rat
  error_count : Nat
deriving Repr, DecidableEq

/-- The organization-wide stats block of the `organization-overview`
payload. -/
structure OrgStats where
  totalProjects : Nat
  totalQueries : Nat
  totalSlotHours : Rat
  totalUsers : Nat
  totalTBProcessed : Rat
  totalErrors : Nat
deriving Repr, DecidableEq

/-- The `organization-overview` response shape consumed by
`OrganizationOverview.fetchOrganizationData`. -/
structure OrgOverviewResponse where
  projects : List ProjectRow
  orgStats : OrgStats
deriving Repr, DecidableEq

/-- Whether an execution record falls in the requested region and the
last-24-hours window of the overview. -/
def inRegionWindow (region : String) (w : TimeWindow)
    (r : ExecutionRecord) : Bool :=
  (r.region = region) && (w.startMs ≤ r.creation_time) &&
    (r.creation_time < w.endMs)

/-- Modelled from the spec: the backend `organization-overview(region)`
endpoint (its SQL is not part of the shipped source tree).  It rolls
the in-region, in-window execution records up per project and
organization-wide: query counts, error counts, slot-hours, terabytes
processed and distinct users. -/
def organizationOverview (region : String) (w : TimeWindow)
    (records : List ExecutionRecord) : OrgOverviewResponse :=
  let rs := records.filter (inRegionWindow region w)
  let pids := (rs.map (fun r => r.project_id)).dedup
  { projects := pids.map (fun pid =>
      let prs := rs.filter (fun r => r.project_id = pid)
      { project_id := pid
        total_queries := prs.length
        slot_hours :=
          (((prs.map (fun r => r.total_slot_ms)).sum : Rat)) / 3600000
        tb_processed :=
          (((prs.map (fun r => r.bytes_processed)).sum : Rat)) / 1000000000000
        error_count := (prs.filter (fun r => r.is_error)).length })
    orgStats :=
      { totalProjects := pids.length
        totalQueries := rs.length
        totalSlotHours :=
          (((rs.map (fun r => r.total_slot_ms)).sum : Rat)) / 3600000
        totalUsers := ((rs.map (fun r => r.user_email)).dedup).length
        totalTBProcessed :=
          (((rs.map (fun r => r.bytes_processed)).sum : Rat)) / 1000000000000
        totalErrors := (rs.filter (fun r => r.is_error)).length } }

/-- C6: when zero execution records fall in the requested region and
window, the organization overview returns `totalQueries = 0` and
`totalErrors = 0` together with an empty project list, not an error. -/
theorem organizationOverview_empty_scope (region : String)
    (w : TimeWindow) (records : List ExecutionRecord)
    (h : records.filter (inRegionWindow region w) = []) :
    (organizationOverview region w records).projects = [] ∧
    (organizationOverview region w records).orgStats.totalQueries = 0 ∧
    (organizationOverview region w records).orgStats.totalErrors = 0 := by
  unfold organizationOverview
  rw [h]
  exact ⟨rfl, rfl, rfl⟩

/-- A record in region "eu", outside any "us"-scoped overview. -/
def euRecord : ExecutionRecord :=
  { sampleRecord with job_id := "job-eu", region := "eu" }

/-- C6 witnessed for region "us" over a last-24-hours window against a
record store whose only record is in region "eu": zero records match
and the overview returns zeros and an empty project list. -/
theorem organizationOverview_empty_scope_witness :
    (organizationOverview "us" ⟨0, 86400000⟩ [euRecord]).projects = [] ∧
    (organizationOverview "us" ⟨0, 86400000⟩
        [euRecord]).orgStats.totalQueries = 0 ∧
    (organizationOverview "us" ⟨0, 86400000⟩
        [euRecord]).orgStats.totalErrors = 0 :=
  organizationOverview_empty_scope "us" ⟨0, 86400000⟩ [euRecord] (by decide)

/-! ### Project status formatting in OrganizationOverview -/

/-- A formatted project card as built by
`OrganizationOverview.fetchOrganizationData`. -/
structure FormattedProject where
  id : String
  name : String
  queriesLast24h : Nat
  slotHoursLast24h : Rat
  status : String
  tbProcessed : Rat
  errorCount : Nat
deriving Repr, DecidableEq

/-- JavaScript `Math.round(x * 100) / 100`: round to two decimal
places, halves away from minus infinity. -/
def round2 (x : Rat) : Rat := ((round (x * 100) : Int) : Rat) / 100

/-- The display-name transformation applied to the project id: after
hyphens are replaced by spaces, every word character that does not
follow a word character is uppercased (the JavaScript regex replace on
word boundaries).  The boolean argument tracks whether the previous
character was a word character. -/
def titleizeChars : Bool → List Char → List Char
  | _, [] => []
  | prevWord, c :: cs =>
      let isWord := c.isAlphanum || c = '_'
      (if isWord && !prevWord then c.toUpper else c) ::
        titleizeChars isWord cs

/-- The project display name: hyphens become spaces, then each word is
capitalized. -/
def formatName (pid : String) : String :=
  String.mk (titleizeChars false ((pid.replace "-" " ").data))

/-- From `OrganizationOverview.fetchOrganizationData`: one project row
formatted for display; the status is "warning" when
`error_count > total_queries * 0.05` and "healthy" otherwise. -/
def formatProject (p : ProjectRow) : FormattedProject :=
  { id := p.project_id
    name := formatName p.project_id
    queriesLast24h := p.total_queries
    slotHoursLast24h := round2 p.slot_hours
    status :=
      if (p.error_count : Rat) > (p.total_queries : Rat) * (5 / 100)
      then "warning" else "healthy"
    tbProcessed := round2 p.tb_processed
    errorCount := p.error_count }

/-- C8: the displayed project status is "warning" exactly when the
project's error count strictly exceeds 5 percent of its total query
count and "healthy" otherwise; equivalently, in integer form, exactly
when twenty times the error count exceeds the query count. -/
theorem formatProject_status_threshold (p : ProjectRow) :
    ((formatProject p).status = "warning" ↔
      (p.error_count : Rat) > (p.total_queries : Rat) * (5 / 100)) ∧
    ((formatProject p).status = "healthy" ↔
      ¬ ((p.error_count : Rat) > (p.total_queries : Rat) * (5 / 100))) ∧
    ((formatProject p).status = "warning" ↔
      20 * p.error_count > p.total_queries) := by
  have key : (p.total_queries : Rat) * (5 / 100) < (p.error_count : Rat) ↔
      p.total_queries < 20 * p.error_count := by
    rw [show (5 / 100 : Rat) = 1 / 20 by norm_num, mul_one_div,
      div_lt_iff₀ (by norm_num : (0 : Rat) < 20)]
    constructor
    · intro hlt
      have h2 : p.total_queries < p.error_count * 20 := by exact_mod_cast hlt
      omega
    · intro hlt
      have h2 : p.total_queries < p.error_count * 20 := by omega
      exact_mod_cast h2
  have hne : ("healthy" : String) ≠ "warning" := by decide
  have hne' : ("warning" : String) ≠ "healthy" := by decide
  unfold formatProject
  by_cases h : (p.error_count : Rat) > (p.total_queries : Rat) * (5 / 100)
  · rw [if_pos h]
    refine ⟨⟨fun _ => h, fun _ => rfl⟩, ⟨fun hw => absurd hw hne', fun hn => absurd h hn⟩, ?_⟩
    exact ⟨fun _ => key.mp h, fun _ => rfl⟩
  · rw [if_neg h]
    refine ⟨⟨fun hw => absurd hw hne, fun hc => absurd hc h⟩,
      ⟨fun _ => h, fun _ => rfl⟩, ?_⟩
    constructor
    · intro hw; exact absurd hw hne
    · intro h20; exact absurd (key.mpr (by omega)) h

end BQDash
